import Mathlib

/-!
Verification of the URL-to-QR-code generator (`qr_generator.py`).

The program has three pure components plus a driver:
* `validate_url` — rejects the empty string, prepends `http://` when no scheme
  prefix is present, then runs the external `validators.url` well-formedness
  check on the possibly prefixed string;
* `generate_qr_code` — maps the error-correction level through a dictionary,
  invokes the external `qrcode` encoder once inside a single try/except, and
  wraps any failure message;
* `convert_image_to_bytes` — serializes the raster to PNG bytes;
* `main` — strips the raw input, validates it, and derives the download
  filename from the parsed authority component.

External libraries (`validators.url`, `urlparse`, the `qrcode` encoder and the
PIL PNG serializer) are not code of this repository; the URL-syntax check and
the netloc parse are modelled from the spec, while the encoder and the
serializer are abstracted as function parameters.
-/

/-- Models the Python method `startswith` on strings: a case-sensitive prefix
match on the character sequence. -/
def py_startswith (s p : String) : Bool :=
  p.data.isPrefixOf s.data

/-- The scheme test from `validate_url` line 59: `startswith` applied to the
prefix pair `http://` / `https://`. -/
def has_scheme (url : String) : Bool :=
  py_startswith url "http://" || py_startswith url "https://"

/-- Characters the modelled URL-syntax check accepts inside an authority
component: alphanumerics, dot, hyphen and the port colon. -/
def hostChar (c : Char) : Bool :=
  c.isAlphanum || c == '.' || c == '-' || c == ':'

/-- The authority segment of the text following the scheme: everything up to
the first `/`, `?` or `#`. -/
def hostOf (l : List Char) : List Char :=
  l.takeWhile (fun c => c != '/' && c != '?' && c != '#')

/-- The modelled well-formedness condition on the part after the scheme: a
non-empty authority of plain host characters containing a dot. -/
def hostOk (r : List Char) : Bool :=
  let host := hostOf r
  !host.isEmpty && host.all hostChar && host.contains '.'

/-- Modelled from the spec: the external check `validators.url` — "standard
URL-syntax rules (scheme, authority/host, optional path/query/fragment)"
(spec §4.1 step 3).  The `validators` library is a third-party dependency, not
code of this repository.  A string passes when it carries an explicit
`http://` or `https://` scheme followed by a well-formed authority. -/
def urlSyntaxOk (u : String) : Bool :=
  if py_startswith u "http://" then hostOk (u.data.drop 7)
  else if py_startswith u "https://" then hostOk (u.data.drop 8)
  else false

/-- The function `validate_url` (qr_generator.py lines 53-66): reject falsy
(empty) input with the message `Please enter a URL`, prepend `http://` when no
scheme prefix is present, then run the URL-syntax check on the possibly
prefixed string.  Returns the Python pair of the validity flag and the
processed URL or error message. -/
def validate_url (url : String) : Bool × String :=
  if url = "" then (false, "Please enter a URL")
  else
    let url2 := if has_scheme url then url else "http://" ++ url
    if urlSyntaxOk url2 then (true, url2)
    else (false, "Please enter a valid URL")

/-- Models the Python method `strip` (leading and trailing whitespace removal)
as used by `main` at line 154. -/
def py_strip (s : String) : String :=
  String.mk (((s.data.dropWhile Char.isWhitespace).reverse.dropWhile
    Char.isWhitespace).reverse)

/-- The validation path of `main` (lines 151-221): an empty text box yields the
error `Please enter a URL` directly; otherwise the stripped input is passed to
`validate_url`. -/
def main_validate (url_input : String) : Bool × String :=
  if url_input = "" then (false, "Please enter a URL")
  else validate_url (py_strip url_input)

/-- The error-correction dictionary of `generate_qr_code` (lines 72-77), with
the numeric constants of the `qrcode` library; a key outside the four levels
L, M, Q, H has no entry (a Python `KeyError`). -/
def error_correction_map (level : String) : Option Nat :=
  if level = "L" then some 1
  else if level = "M" then some 0
  else if level = "Q" then some 3
  else if level = "H" then some 2
  else none

/-- Python renders a `KeyError` carrying a string key as the repr of that key:
the key wrapped in single-quote characters (code point 39). -/
def keyError_str (k : String) : String :=
  String.mk (Char.ofNat 39 :: (k.data ++ [Char.ofNat 39]))

/-- The function `generate_qr_code` (lines 68-97).  The external `qrcode`
interaction (constructing `QRCode`, `add_data`, `make` with auto-fit,
`make_image`) is abstracted as one call to `encoder url ec box_size
border_size` that either returns a raster or raises with a message.  The body
mirrors the single try/except: a missing dictionary key or an encoder failure
is caught and wrapped by prepending `Error generating QR code: ` to the
underlying message; on success the image is returned with no error.  The
second component of the result counts how many times the encoder was
invoked. -/
def generate_qr_code {Img : Type}
    (encoder : String → Nat → Nat → Nat → Except String Img)
    (url : String) (error_correction_level : String)
    (border_size : Nat) (box_size : Nat) :
    (Option Img × Option String) × Nat :=
  match error_correction_map error_correction_level with
  | none =>
      ((none, some ("Error generating QR code: "
        ++ keyError_str error_correction_level)), 0)
  | some ec =>
      match encoder url ec box_size border_size with
      | Except.ok img => ((some img, none), 1)
      | Except.error e =>
          ((none, some ("Error generating QR code: " ++ e)), 1)

/-- The function `convert_image_to_bytes` (lines 99-104): serializes the
raster through the external PIL PNG writer, abstracted as `save_png`. -/
def convert_image_to_bytes {Img : Type}
    (save_png : Img → List Nat) (image : Img) : List Nat :=
  save_png image

/-- The encode-then-serialize pipeline of `main` (lines 159-174): generate the
QR image and, when one is produced, convert it to PNG bytes. -/
def qr_png_bytes {Img : Type}
    (encoder : String → Nat → Nat → Nat → Except String Img)
    (save_png : Img → List Nat)
    (url level : String) (border_size box_size : Nat) : Option (List Nat) :=
  match (generate_qr_code encoder url level border_size box_size).fst.fst with
  | some img => some (convert_image_to_bytes save_png img)
  | none => none

/-- Modelled from the spec and the Python standard library: the netloc field
of `urlparse` for scheme-prefixed URLs — "the authority component of the
normalized URL" (spec §6).  `urlparse` is a standard-library collaborator, not
code of this repository. -/
def netloc (url : String) : String :=
  if py_startswith url "http://" then String.mk (hostOf (url.data.drop 7))
  else if py_startswith url "https://" then String.mk (hostOf (url.data.drop 8))
  else ""

/-- Models the Python `replace` call of line 185: the pattern is the single
character dot, so the call is a character-wise map sending dots to
underscores. -/
def py_replace_dot (s : String) : String :=
  String.mk (s.data.map (fun c => if c == '.' then '_' else c))

/-- The download filename of `main` (lines 184-185): the literal `qr_code_`,
then the netloc of the processed URL with dots replaced by underscores, then
the extension `.png`. -/
def download_filename (processed_url : String) : String :=
  "qr_code_" ++ py_replace_dot (netloc processed_url) ++ ".png"

/-- A list is a Boolean prefix of itself followed by anything. -/
theorem isPrefixOf_append_self (l t : List Char) :
    l.isPrefixOf (l ++ t) = true := by
  induction l with
  | nil => simp [List.isPrefixOf]
  | cons c cs ih => simp [List.isPrefixOf, ih]

/-- Prepending the scheme never yields the empty string. -/
theorem http_append_ne_empty (s : String) : "http://" ++ s ≠ "" := by
  intro h
  have h2 : ("http://" ++ s).data = ("" : String).data := by rw [h]
  rw [String.data_append] at h2
  have h3 := List.append_eq_nil.mp h2
  exact absurd h3.1 (by decide)

/-- Prepending the scheme makes the scheme test succeed. -/
theorem has_scheme_http_append (s : String) :
    has_scheme ("http://" ++ s) = true := by
  have h : py_startswith ("http://" ++ s) "http://" = true := by
    unfold py_startswith
    rw [String.data_append]
    exact isPrefixOf_append_self _ _
  simp [has_scheme, h]

/-- C1: for every non-empty string that already starts with the case-sensitive
prefix `http://` or `https://`, `validate_url` prepends nothing and succeeds
with the string unchanged exactly when the URL-syntax check passes; when the
check fails it returns the malformed-URL error. -/
theorem validate_url_scheme_prefixed (s : String) (hne : s ≠ "")
    (hs : has_scheme s = true) :
    (validate_url s = (true, s) ↔ urlSyntaxOk s = true) ∧
    (urlSyntaxOk s = false →
      validate_url s = (false, "Please enter a valid URL")) := by
  simp only [validate_url, if_neg hne, hs, if_true]
  constructor
  · cases h : urlSyntaxOk s <;> simp [h]
  · intro h; rw [h]; simp

/-- Witness for C1 at the concrete input `http://example.com`. -/
theorem validate_url_scheme_prefixed_witness :
    (validate_url "http://example.com" = (true, "http://example.com") ↔
      urlSyntaxOk "http://example.com" = true) ∧
    (urlSyntaxOk "http://example.com" = false →
      validate_url "http://example.com" =
        (false, "Please enter a valid URL")) :=
  validate_url_scheme_prefixed "http://example.com" (by decide) (by decide)

/-- C2: for every non-empty string without a scheme prefix, `validate_url`
returns exactly the same flag-and-value pair as `validate_url` applied to the
string with `http://` prepended. -/
theorem validate_url_no_scheme (s : String) (hne : s ≠ "")
    (hs : has_scheme s = false) :
    validate_url s = validate_url ("http://" ++ s) := by
  simp only [validate_url, if_neg hne, if_neg (http_append_ne_empty s),
    hs, has_scheme_http_append, if_true]
  simp

/-- Witness for C2 at the concrete input `example.com`. -/
theorem validate_url_no_scheme_witness :
    validate_url "example.com" = validate_url "http://example.com" :=
  validate_url_no_scheme "example.com" (by decide) (by decide)

/-- C3, counterexample: a whitespace-only string passed directly to
`validate_url` is empty after trimming, yet `validate_url` returns the
malformed-URL error, not the empty-input error. -/
theorem validate_url_whitespace_not_empty_error :
    py_strip "   " = "" ∧
    validate_url "   " = (false, "Please enter a valid URL") ∧
    (validate_url "   ").snd ≠ "Please enter a URL" := by decide

/-- C3, amended: `main` strips the input before validating, so on the main
validation path every input that is empty after trimming yields the
empty-input error, and `validate_url` applied to the stripped input yields the
empty-input error as well. -/
theorem main_validate_trimmed_empty (s : String) (h : py_strip s = "") :
    main_validate s = (false, "Please enter a URL") ∧
    validate_url (py_strip s) = (false, "Please enter a URL") := by
  constructor
  · unfold main_validate
    by_cases hne : s = ""
    · simp [hne]
    · rw [if_neg hne, h]; decide
  · rw [h]; decide

/-- Witness for the amended C3 at the whitespace-only input. -/
theorem main_validate_trimmed_empty_witness :
    main_validate "   " = (false, "Please enter a URL") ∧
    validate_url (py_strip "   ") = (false, "Please enter a URL") :=
  main_validate_trimmed_empty "   " (by decide)

/-- C4: every successful result of `validate_url` equals the input itself or
the input with `http://` prepended, and starts with `http://` or `https://`;
no further canonicalization happens. -/
theorem validate_url_success_shape (s : String)
    (h : (validate_url s).fst = true) :
    ((validate_url s).snd = s ∨ (validate_url s).snd = "http://" ++ s) ∧
    has_scheme (validate_url s).snd = true := by
  by_cases hne : s = ""
  · subst hne; simp [validate_url] at h
  · by_cases hs : has_scheme s = true
    · by_cases hok : urlSyntaxOk s = true
      · constructor
        · left; simp [validate_url, hne, hs, hok]
        · simp [validate_url, hne, hs, hok]
      · simp [validate_url, hne, hs, hok] at h
    · rw [Bool.not_eq_true] at hs
      by_cases hok : urlSyntaxOk ("http://" ++ s) = true
      · constructor
        · right; simp [validate_url, hne, hs, hok]
        · simp [validate_url, hne, hs, hok, has_scheme_http_append]
      · simp [validate_url, hne, hs, hok] at h

/-- Witness for C4 at the concrete input `example.com`. -/
theorem validate_url_success_shape_witness :
    ((validate_url "example.com").snd = "example.com" ∨
      (validate_url "example.com").snd = "http://" ++ "example.com") ∧
    has_scheme (validate_url "example.com").snd = true :=
  validate_url_success_shape "example.com" (by decide)

/-- C5, counterexample: the messages produced by the code read
`Please enter a URL` and `Please enter a valid URL`, without the trailing
period the claim demands. -/
theorem validate_url_messages_lack_period :
    validate_url "" = (false, "Please enter a URL") ∧
    ("Please enter a URL" : String) ≠ "Please enter a URL." ∧
    validate_url "not a url" = (false, "Please enter a valid URL") ∧
    ("Please enter a valid URL" : String) ≠ "Please enter a valid URL." := by
  decide

/-- C5, amended: the empty input surfaces exactly `Please enter a URL` and a
non-empty input failing the syntax check surfaces exactly
`Please enter a valid URL` — both without a trailing period. -/
theorem validate_url_error_messages (s : String) :
    (s = "" → validate_url s = (false, "Please enter a URL")) ∧
    (s ≠ "" → (validate_url s).fst = false →
      (validate_url s).snd = "Please enter a valid URL") := by
  constructor
  · intro h; subst h; decide
  · intro hne hf
    simp only [validate_url, if_neg hne] at hf ⊢
    cases hok : urlSyntaxOk (if has_scheme s then s else "http://" ++ s) <;>
      simp [hok] at hf ⊢

/-- Witness for the amended C5 at the empty input and at `not a url`. -/
theorem validate_url_error_messages_witness :
    validate_url "" = (false, "Please enter a URL") ∧
    (validate_url "not a url").snd = "Please enter a valid URL" :=
  ⟨(validate_url_error_messages "").1 rfl,
   (validate_url_error_messages "not a url").2 (by decide) (by decide)⟩

/-- C6: whenever the external encoder raises, `generate_qr_code` returns no
image together with the wrapper message with the underlying failure message
appended, and the encoder was invoked exactly once. -/
theorem generate_qr_code_encoder_failure {Img : Type}
    (encoder : String → Nat → Nat → Nat → Except String Img)
    (url level : String) (border_size box_size : Nat) (ec : Nat) (m : String)
    (hlvl : error_correction_map level = some ec)
    (henc : encoder url ec box_size border_size = Except.error m) :
    generate_qr_code encoder url level border_size box_size =
      ((none, some ("Error generating QR code: " ++ m)), 1) := by
  simp [generate_qr_code, hlvl, henc]

/-- Witness for C6 with a concrete always-failing encoder. -/
theorem generate_qr_code_encoder_failure_witness :
    generate_qr_code (fun _ _ _ _ => (Except.error "boom" : Except String Nat))
      "http://example.com" "M" 4 10 =
      ((none, some "Error generating QR code: boom"), 1) :=
  generate_qr_code_encoder_failure
    (fun _ _ _ _ => (Except.error "boom" : Except String Nat))
    "http://example.com" "M" 4 10 0 "boom" rfl rfl

/-- C7: `generate_qr_code` always returns either an image with no error or no
image with an error message — never both and never neither. -/
theorem generate_qr_code_exclusive {Img : Type}
    (encoder : String → Nat → Nat → Nat → Except String Img)
    (url level : String) (border_size box_size : Nat) :
    (∃ img, (generate_qr_code encoder url level border_size box_size).fst
        = (some img, none)) ∨
    (∃ msg, (generate_qr_code encoder url level border_size box_size).fst
        = (none, some msg)) := by
  cases hmap : error_correction_map level with
  | none =>
      right
      exact ⟨"Error generating QR code: " ++ keyError_str level,
        by simp [generate_qr_code, hmap]⟩
  | some ec =>
      cases henc : encoder url ec box_size border_size with
      | ok img => left; exact ⟨img, by simp [generate_qr_code, hmap, henc]⟩
      | error e =>
          right
          exact ⟨"Error generating QR code: " ++ e,
            by simp [generate_qr_code, hmap, henc]⟩

/-- C8: the download filename is the literal `qr_code_`, then the netloc of
the normalized URL with every dot replaced by an underscore, then `.png`; in
particular the URL `https://example.com/path` yields
`qr_code_example_com.png`. -/
theorem download_filename_spec :
    netloc "https://example.com/path" = "example.com" ∧
    download_filename "https://example.com/path" = "qr_code_example_com.png" ∧
    ∀ u : String, download_filename u =
      "qr_code_" ++ py_replace_dot (netloc u) ++ ".png" :=
  ⟨by decide, by decide, fun _ => rfl⟩

/-- C9: the encode-then-serialize pipeline is deterministic — two runs on the
same URL and options produce identical optional PNG byte sequences. -/
theorem qr_png_bytes_deterministic {Img : Type}
    (encoder : String → Nat → Nat → Nat → Except String Img)
    (save_png : Img → List Nat) (url level : String)
    (border_size box_size : Nat) (b1 b2 : Option (List Nat))
    (h1 : b1 = qr_png_bytes encoder save_png url level border_size box_size)
    (h2 : b2 = qr_png_bytes encoder save_png url level border_size box_size) :
    b1 = b2 := by rw [h1, h2]

/-- Witness for C9 with a concrete encoder and serializer. -/
theorem qr_png_bytes_deterministic_witness :
    qr_png_bytes (fun _ _ _ _ => (Except.ok 7 : Except String Nat))
      (fun n => [n]) "http://example.com" "M" 4 10 =
    qr_png_bytes (fun _ _ _ _ => (Except.ok 7 : Except String Nat))
      (fun n => [n]) "http://example.com" "M" 4 10 :=
  qr_png_bytes_deterministic
    (fun _ _ _ _ => (Except.ok 7 : Except String Nat))
    (fun n => [n]) "http://example.com" "M" 4 10 _ _ rfl rfl

/-- C10: for every level outside the four dictionary keys, the lookup failure
is caught and `generate_qr_code` returns no image together with the wrapped
key-error message, without ever invoking the encoder. -/
theorem generate_qr_code_bad_level {Img : Type}
    (encoder : String → Nat → Nat → Nat → Except String Img)
    (url level : String) (border_size box_size : Nat)
    (hL : level ≠ "L") (hM : level ≠ "M") (hQ : level ≠ "Q")
    (hH : level ≠ "H") :
    generate_qr_code encoder url level border_size box_size =
      ((none, some ("Error generating QR code: "
        ++ keyError_str level)), 0) := by
  have hmap : error_correction_map level = none := by
    simp [error_correction_map, hL, hM, hQ, hH]
  simp [generate_qr_code, hmap]

/-- Witness for C10 at the concrete unknown level `X`. -/
theorem generate_qr_code_bad_level_witness :
    generate_qr_code (fun _ _ _ _ => (Except.ok 0 : Except String Nat))
      "http://example.com" "X" 4 10 =
      ((none, some ("Error generating QR code: " ++ keyError_str "X")), 0) :=
  generate_qr_code_bad_level
    (fun _ _ _ _ => (Except.ok 0 : Except String Nat))
    "http://example.com" "X" 4 10
    (by decide) (by decide) (by decide) (by decide)
